import Mathlib

/-!
Verification of the CSR reconciliation module
(`plugins/modules/openssl_csr.py`).

The module converges an on-disk certificate signing request to a desired
specification: it loads existing bytes, asks a pluggable backend whether they
still satisfy the specification, and regenerates (or removes) the file with an
optional backup, honouring check mode.  The module code under `src/` is
embedded directly; the collaborators it calls (`OpenSSLObject`,
`load_file_if_exists`, `write_file`, the csr module backend, `backup_local`
and the file-attribute helpers) are not part of `src/` and are modelled from
the specification, as noted on each definition.
-/

namespace CsrReconcile

/-- Raw serialized artifact bytes on durable storage. -/
abbrev Bytes := List Nat

/-- Desired CSR specification supplied by the caller: subject fields,
subject alternative names and key usage, per the data model. -/
structure DesiredSpec where
  subject : List (String × String)
  subjectAltName : List String
  keyUsage : List String
deriving DecidableEq, Repr

/-- Parsed in-memory representation of a CSR artifact. -/
structure Artifact where
  content : Bytes
deriving DecidableEq, Repr

/-- Structured field-by-field summary of an artifact, used in the outcome
record. -/
structure Summary where
  subject : List (String × String)
  subjectAltName : List String
deriving DecidableEq, Repr

/-- Modelled from the spec: the pluggable backend capability (§4.3), external
to `src/` (the crypto module backends): parse existing bytes, compare an
artifact against the desired specification, build a new artifact (which can
raise `OpenSSLObjectError`, modelled as `Except String`), serialize, and
summarize. -/
structure Backend where
  parse : Bytes → Option Artifact
  matchesSpec : Artifact → DesiredSpec → Bool
  build : DesiredSpec → Except String Artifact
  serialize : Artifact → Bytes
  summarize : Artifact → Summary

/-- Modelled from the spec: the state the csr module backend object carries
across calls: the existing bytes handed over via `set_existing`, and the
generated CSR once `generate_csr` ran. -/
structure BackendState where
  existing : Option Bytes
  csr : Option Artifact

/-- Filesystem attributes (owner/group/mode) of the target file, normalized
by the common file-argument handling. -/
structure Attrs where
  owner : Nat
  group : Nat
  mode : Nat
deriving DecidableEq, Repr

/-- The filesystem state one reconciliation run can observe and mutate:
whether the parent directory of the target path exists, the target file
(bytes and attributes) or its absence, the backup location's content, and
whether a backup copy operation would succeed (`backup_ok = false` models a
failing backup). -/
structure World where
  parent_dir_exists : Bool
  target : Option (Bytes × Attrs)
  backupFile : Option Bytes
  backup_ok : Bool
deriving DecidableEq, Repr

/-- The requested state of the artifact. -/
inductive TargetState
  | present
  | absent
deriving DecidableEq, Repr

/-- The module parameters of one run: requested state, force, backup,
return_content, check mode, the desired specification, and the desired file
attributes from the common file arguments. -/
structure ModuleParams where
  state : TargetState
  force : Bool
  backup : Bool
  return_content : Bool
  check_mode : Bool
  desired : DesiredSpec
  file_attrs : Attrs

/-- Observable operations of one run, collected in order of occurrence. -/
inductive Event
  | selectBackend
  | load
  | compare
  | backup
  | write
  | removeFile
deriving DecidableEq, Repr

/-- Modelled from the spec: `load_file_if_exists` returns the target's bytes,
or nothing when the path is absent (a missing path is not an error). -/
def load_file_if_exists (w : World) : Option Bytes :=
  w.target.map Prod.fst

/-- Modelled from the spec: `set_existing` hands the loaded bytes (or `None`)
to the backend. -/
def set_existing (s : BackendState) (b : Option Bytes) : BackendState :=
  { s with existing := b }

/-- Modelled from the spec: the backend's regeneration test.  Absent bytes
need regeneration; a parse failure of existing bytes is treated as absent
(a corrupt file is eligible for regeneration, not a fatal error); otherwise
the parsed artifact must match the desired specification. -/
def needs_regeneration (b : Backend) (desired : DesiredSpec) (s : BackendState) : Bool :=
  match s.existing with
  | none => true
  | some bytes =>
    match b.parse bytes with
    | none => true
    | some art => ! b.matchesSpec art desired

/-- Modelled from the spec: `backup_local` copies the current target bytes to
a fresh sibling backup name and returns it; it is a no-op returning nothing
when the source path is absent, and it fails when the copy cannot be made. -/
def backup_local (w : World) : Except String (Option Bytes × World) :=
  match w.target with
  | none => .ok (none, w)
  | some (bytes, _) =>
    if w.backup_ok then .ok (some bytes, { w with backupFile := some bytes })
    else .error "backup failed"

/-- Modelled from the spec: atomic write of serialized bytes to the target
path; the file keeps the attributes it had, and a freshly created file starts
with default attributes (normalized afterwards by the attribute step). -/
def write_file (w : World) (bs : Bytes) : World :=
  { w with target := some (bs, match w.target with
      | some (_, a) => a
      | none => ⟨0, 0, 0⟩) }

/-- Modelled from the spec: in check mode a target that is still absent would
have been created, so it counts as a change. -/
def check_file_absent_if_check_mode (check_mode : Bool) (w : World) : Bool :=
  check_mode && w.target.isNone

/-- Modelled from the spec: normalize owner/group/mode of the target to the
requested file attributes; reports a change when they differed, and applies
them only outside check mode. -/
def set_fs_attributes_if_different (p : ModuleParams) (changed : Bool) (w : World) :
    Bool × World :=
  match w.target with
  | none => (changed, w)
  | some (bs, a) =>
    if a = p.file_attrs then (changed, w)
    else if p.check_mode then (true, w)
    else (true, { w with target := some (bs, p.file_attrs) })

/-- The fields of `CertificateSigningRequestModule` together with those of its
`OpenSSLObject` base class (force, check_mode, changed). -/
structure ModuleState where
  force : Bool
  check_mode : Bool
  changed : Bool
  return_content : Bool
  backup : Bool
  backup_file : Option Bytes
  backendState : BackendState

/-- `CertificateSigningRequestModule.__init__`: copy the parameters, start
with `changed = false` and no backup file, and hand the loaded existing bytes
to the backend via `set_existing`. -/
def initModule (p : ModuleParams) (w : World) : ModuleState :=
  { force := p.force
    check_mode := p.check_mode
    changed := false
    return_content := p.return_content
    backup := p.backup
    backup_file := none
    backendState := set_existing { existing := none, csr := none } (load_file_if_exists w) }

/-- `CertificateSigningRequestModule.generate`: when forced or when the
backend reports the existing artifact does not satisfy the desired
specification, build and serialize a new CSR, optionally back up, then write
— all writes suppressed in check mode — and record `changed`; afterwards the
file-attribute normalization may also report a change. -/
def generate (b : Backend) (p : ModuleParams) (m : ModuleState) (w : World) :
    Except String ModuleState × World × List Event :=
  let ev0 := if m.force then [] else [Event.compare]
  let step : Except String ModuleState × World × List Event :=
    if m.force || needs_regeneration b p.desired m.backendState then
      if m.check_mode then
        (.ok { m with changed := true }, w, ev0)
      else
        match b.build p.desired with
        | .error e => (.error e, w, ev0)
        | .ok art =>
          let m1 := { m with backendState := { m.backendState with csr := some art } }
          let result := b.serialize art
          if m1.backup then
            match backup_local w with
            | .error e => (.error e, w, ev0)
            | .ok (bf, w1) =>
              (.ok { m1 with backup_file := bf, changed := true },
               write_file w1 result, ev0 ++ [Event.backup, Event.write])
          else
            (.ok { m1 with changed := true }, write_file w result, ev0 ++ [Event.write])
    else
      (.ok m, w, ev0)
  match step with
  | (.error e, w2, evs) => (.error e, w2, evs)
  | (.ok m3, w3, evs) =>
    if check_file_absent_if_check_mode m3.check_mode w3 then
      (.ok { m3 with changed := true }, w3, evs)
    else
      let cw := set_fs_attributes_if_different p m3.changed w3
      (.ok { m3 with changed := cw.1 }, cw.2, evs)

/-- Modelled from the spec: `OpenSSLObject.remove` deletes the target and
reports a change; a missing file is not an error; in check mode the deletion
is only evaluated, never performed. -/
def base_remove (m : ModuleState) (w : World) : ModuleState × World × List Event :=
  match w.target with
  | none => (m, w, [])
  | some _ =>
    if m.check_mode then ({ m with changed := true }, w, [])
    else ({ m with changed := true }, { w with target := none }, [Event.removeFile])

/-- `CertificateSigningRequestModule.remove`: clear the backend's existing
state, back up outside check mode when requested, then run the base
removal. -/
def remove (m : ModuleState) (w : World) :
    Except String ModuleState × World × List Event :=
  let m0 := { m with backendState := set_existing m.backendState none }
  if m0.backup && ! m0.check_mode then
    match backup_local w with
    | .error e => (.error e, w, [])
    | .ok (bf, w1) =>
      let r := base_remove { m0 with backup_file := bf } w1
      (.ok r.1, r.2.1, Event.backup :: r.2.2)
  else
    let r := base_remove m0 w
    (.ok r.1, r.2.1, r.2.2)

/-- The result record assembled by `dump()`: the structured summary, the CSR
content when requested, the changed flag, and the backup file when one was
created. -/
structure DumpResult where
  summary : Option Summary
  csr_content : Option Bytes
  changed : Bool
  backup_file : Option Bytes
deriving DecidableEq, Repr

/-- Modelled from the spec: the backend's `dump`: a structured summary of the
current artifact (the generated CSR, else the parsed existing bytes) and its
serialized content when `include_csr` is requested; nothing when there is no
artifact. -/
def backend_dump (b : Backend) (s : BackendState) (include_csr : Bool) :
    Option Summary × Option Bytes :=
  let art : Option Artifact :=
    match s.csr with
    | some a => some a
    | none =>
      match s.existing with
      | some bytes => b.parse bytes
      | none => none
  (art.map b.summarize, if include_csr then art.map b.serialize else none)

/-- `CertificateSigningRequestModule.dump`: the backend dump plus the changed
flag, with `backup_file` present only when one was created. -/
def dump (b : Backend) (m : ModuleState) : DumpResult :=
  let sc := backend_dump b m.backendState m.return_content
  { summary := sc.1
    csr_content := sc.2
    changed := m.changed
    backup_file := m.backup_file }

/-- `main()`: fail when the parent directory of the target path is missing,
before any other work; otherwise select the backend, construct the module
(which loads the existing bytes), run `generate` or `remove` according to the
requested state, and dump the outcome record.  A raised `OpenSSLObjectError`
becomes the run's failure message, surfaced verbatim. -/
def main_run (b : Backend) (p : ModuleParams) (w : World) :
    Except String DumpResult × World × List Event :=
  if ! w.parent_dir_exists then
    (.error "The directory does not exist or the file is not a directory", w, [])
  else
    let m := initModule p w
    let step :=
      match p.state with
      | .present => generate b p m w
      | .absent => remove m w
    let evs := Event.selectBackend :: Event.load :: step.2.2
    match step.1 with
    | .error e => (.error e, step.2.1, evs)
    | .ok m1 => (.ok (dump b m1), step.2.1, evs)

/-- The changed flag of a run's outcome, or nothing when the run failed. -/
def changedOf : Except String DumpResult → Option Bool
  | .ok r => some r.changed
  | .error _ => none

/-- Whether the run, if it got that far, would perform a destructive write or
delete: a removal of an existing target, or a regeneration that is forced or
required by the backend comparison of the loaded bytes. -/
def destructive_pending (b : Backend) (p : ModuleParams) (w : World) : Bool :=
  match p.state with
  | .absent => w.target.isSome
  | .present =>
    p.force || needs_regeneration b p.desired
      { existing := load_file_if_exists w, csr := none }

/-- The backend contract needed for idempotence: an artifact built from the
desired specification, once serialized and re-parsed, matches that same
specification (the on-disk invariant of the data model, delegated to the
backend). -/
def Backend.coherent (b : Backend) (d : DesiredSpec) : Prop :=
  ∀ a, b.build d = .ok a →
    ∃ a2, b.parse (b.serialize a) = some a2 ∧ b.matchesSpec a2 d = true

/-- Parsing for the sample backend: bytes serialize with a leading tag 42, so
untagged byte strings fail to parse (a corrupt file). -/
def sampleParse (bs : Bytes) : Option Artifact :=
  if bs.head? = some 42 then some ⟨bs⟩ else none

/-- Canonical serialization of a desired specification for the sample
backend. -/
def encodeSpec (d : DesiredSpec) : Bytes :=
  42 :: ((d.subject.map fun kv => kv.1.length + kv.2.length) ++
    d.subjectAltName.map String.length ++ d.keyUsage.map String.length)

/-- A concrete deterministic backend instance used to exercise the
reconciler on explicit inputs. -/
def sampleBackend : Backend :=
  { parse := sampleParse
    matchesSpec := fun a d => a.content == encodeSpec d
    build := fun d => .ok ⟨encodeSpec d⟩
    serialize := fun a => a.content
    summarize := fun a => ⟨[("CN", toString a.content.length)], []⟩ }

/-- A backend whose build step raises a signing-key error, exercising the
fatal-error path. -/
def failingBackend : Backend :=
  { sampleBackend with build := fun _ => .error "signing key unavailable" }

/-- A sample desired specification. -/
def sampleSpec : DesiredSpec :=
  { subject := [("CN", "example.com")]
    subjectAltName := []
    keyUsage := ["digitalSignature"] }

/-- Sample file attributes. -/
def sampleAttrs : Attrs := ⟨1, 1, 420⟩

/-- Alternative file attributes, distinct from `sampleAttrs`. -/
def otherAttrs : Attrs := ⟨0, 0, 384⟩

/-- Baseline parameters: state present, nothing forced, no backup, apply
mode. -/
def baseParams : ModuleParams :=
  { state := .present
    force := false
    backup := false
    return_content := false
    check_mode := false
    desired := sampleSpec
    file_attrs := sampleAttrs }

/-- A world with no target file. -/
def absentWorld : World :=
  { parent_dir_exists := true, target := none, backupFile := none, backup_ok := true }

/-- A world whose target already matches `sampleSpec` with the desired
attributes. -/
def matchWorld : World :=
  { parent_dir_exists := true
    target := some (encodeSpec sampleSpec, sampleAttrs)
    backupFile := none
    backup_ok := true }

/-- A world whose target holds unparseable bytes. -/
def corruptWorld : World :=
  { parent_dir_exists := true
    target := some ([7], sampleAttrs)
    backupFile := none
    backup_ok := true }

/-- A world whose target matches `sampleSpec` but carries different file
attributes. -/
def mismatchedAttrsWorld : World :=
  { parent_dir_exists := true
    target := some (encodeSpec sampleSpec, otherAttrs)
    backupFile := none
    backup_ok := true }

/-- A world with an existing target where the backup operation fails. -/
def badBackupWorld : World :=
  { parent_dir_exists := true
    target := some ([42, 1], sampleAttrs)
    backupFile := none
    backup_ok := false }

/-- A world whose parent directory is missing. -/
def noDirWorld : World :=
  { parent_dir_exists := false, target := none, backupFile := none, backup_ok := true }

/-- The `backup_file` entry in a run's outcome record, or nothing when the
run failed or no backup was created. -/
def backupFileOf : Except String DumpResult → Option Bytes
  | .ok r => r.backup_file
  | .error _ => none

/-- The changed flag a run computes: for a removal, whether a target existed;
for state present, whether the regeneration decision fires or the target's
attributes differ from the requested ones. -/
def decide_changed (b : Backend) (p : ModuleParams) (w : World) : Bool :=
  match p.state with
  | .absent => w.target.isSome
  | .present =>
    (p.force || needs_regeneration b p.desired
      { existing := load_file_if_exists w, csr := none }) ||
    (match w.target with
     | some (_, a) => decide (a ≠ p.file_attrs)
     | none => false)

lemma set_fs_true (p : ModuleParams) (w : World) :
    (set_fs_attributes_if_different p true w).1 = true := by
  unfold set_fs_attributes_if_different
  split
  · rfl
  · split
    · rfl
    · split <;> rfl

lemma set_fs_target_fst (p : ModuleParams) (c : Bool) (w : World) :
    ((set_fs_attributes_if_different p c w).2).target.map Prod.fst = w.target.map Prod.fst := by
  unfold set_fs_attributes_if_different
  split
  · rfl
  · next bs a h =>
    split
    · rfl
    · split
      · rfl
      · simp [h]

lemma set_fs_check_world (p : ModuleParams) (c : Bool) (w : World)
    (hc : p.check_mode = true) :
    (set_fs_attributes_if_different p c w).2 = w := by
  unfold set_fs_attributes_if_different
  split
  · rfl
  · split
    · rfl
    · simp [hc]

lemma set_fs_changed_eq (p : ModuleParams) (c : Bool) (w : World) (bs : Bytes) (a : Attrs)
    (ht : w.target = some (bs, a)) :
    (set_fs_attributes_if_different p c w).1 = (c || decide (¬ a = p.file_attrs)) := by
  unfold set_fs_attributes_if_different
  rw [ht]
  by_cases ha : a = p.file_attrs <;> simp [ha]
  by_cases hcm : p.check_mode <;> simp [hcm]

lemma main_run_check_world (b : Backend) (p : ModuleParams) (w : World)
    (hc : p.check_mode = true) :
    (main_run b p w).2.1 = w := by
  cases hd : w.parent_dir_exists
  · simp [main_run, hd]
  · cases hs : p.state
    · rcases ht : w.target with _ | ⟨bs, a⟩ <;>
        cases hreg : (p.force || needs_regeneration b p.desired
          { existing := load_file_if_exists w, csr := none }) <;>
        simp [main_run, hd, hs, generate, initModule, set_existing, hreg, hc,
          check_file_absent_if_check_mode, ht, set_fs_check_world]
    · simp [main_run, hd, hs, remove, initModule, set_existing, hc, base_remove]
      split <;> simp

lemma main_run_check_changed (b : Backend) (p : ModuleParams) (w : World)
    (hc : p.check_mode = true) (hd : w.parent_dir_exists = true) :
    changedOf (main_run b p w).1 = some (decide_changed b p w) := by
  cases hs : p.state
  · cases hreg : (p.force || needs_regeneration b p.desired
        { existing := load_file_if_exists w, csr := none })
    · rcases ht : w.target with _ | ⟨bs, a⟩
      · exfalso
        simp [needs_regeneration, load_file_if_exists, ht] at hreg
      · simp [main_run, hd, hs, generate, initModule, set_existing, hreg, hc,
          check_file_absent_if_check_mode, ht, changedOf, dump, decide_changed,
          set_fs_changed_eq p false w bs a ht]
    · rcases ht : w.target with _ | ⟨bs, a⟩
      · simp [main_run, hd, hs, generate, initModule, set_existing, hreg, hc,
          check_file_absent_if_check_mode, ht, changedOf, dump, decide_changed]
      · simp [main_run, hd, hs, generate, initModule, set_existing, hreg, hc,
          check_file_absent_if_check_mode, ht, changedOf, dump, decide_changed,
          set_fs_changed_eq p true w bs a ht]
  · rcases ht : w.target with _ | ⟨bs, a⟩ <;>
      simp [main_run, hd, hs, remove, initModule, set_existing, hc, base_remove, ht,
        changedOf, dump, decide_changed]

lemma main_run_apply_changed (b : Backend) (p : ModuleParams) (w : World)
    (hc : p.check_mode = false) (hd : w.parent_dir_exists = true)
    (c : Bool) (h : changedOf (main_run b p w).1 = some c) :
    c = decide_changed b p w := by
  cases hs : p.state
  · cases hreg : (p.force || needs_regeneration b p.desired
        { existing := load_file_if_exists w, csr := none })
    · rcases ht : w.target with _ | ⟨bs, a⟩
      · exfalso
        simp [needs_regeneration, load_file_if_exists, ht] at hreg
      · obtain ⟨hf, hN⟩ := Bool.or_eq_false_iff.mp hreg
        simp [main_run, hd, hs, generate, initModule, set_existing, hf, hN, hc,
          check_file_absent_if_check_mode, ht, changedOf, dump,
          set_fs_changed_eq p false w bs a ht] at h
        simp [decide_changed, hs, hreg, ht]
        simp [h]
    · cases hbuild : b.build p.desired with
      | error e =>
        simp [main_run, hd, hs, generate, initModule, set_existing, hreg, hc, hbuild,
          changedOf] at h
      | ok art =>
        cases hb : p.backup
        · simp [main_run, hd, hs, generate, initModule, set_existing, hreg, hc, hbuild,
            hb, check_file_absent_if_check_mode, write_file, set_fs_true, changedOf,
            dump] at h
          simp [decide_changed, hs, hreg, ← h]
        · rcases ht : w.target with _ | ⟨bs, a⟩
          · simp [main_run, hd, hs, generate, initModule, set_existing, hreg, hc, hbuild,
              hb, backup_local, ht, check_file_absent_if_check_mode, write_file,
              set_fs_true, changedOf, dump] at h
            simp [decide_changed, hs, hreg, ← h]
          · cases hok : w.backup_ok
            · simp [main_run, hd, hs, generate, initModule, set_existing, hreg, hc,
                hbuild, hb, backup_local, ht, hok, changedOf] at h
            · simp [main_run, hd, hs, generate, initModule, set_existing, hreg, hc,
                hbuild, hb, backup_local, ht, hok, check_file_absent_if_check_mode,
                write_file, set_fs_true, changedOf, dump] at h
              simp [decide_changed, hs, hreg, ← h]
  · rcases ht : w.target with _ | ⟨bs, a⟩
    · cases hb : p.backup <;>
        simp [main_run, hd, hs, remove, initModule, set_existing, hb, hc, base_remove, ht,
          backup_local, changedOf, dump] at h <;>
        simp [decide_changed, hs, ht, ← h]
    · cases hb : p.backup
      · simp [main_run, hd, hs, remove, initModule, set_existing, hb, hc, base_remove, ht,
          changedOf, dump] at h
        simp [decide_changed, hs, ht, ← h]
      · cases hok : w.backup_ok
        · simp [main_run, hd, hs, remove, initModule, set_existing, hb, hc, backup_local,
            ht, hok, changedOf] at h
        · simp [main_run, hd, hs, remove, initModule, set_existing, hb, hc, backup_local,
            ht, hok, base_remove, changedOf, dump] at h
          simp [decide_changed, hs, ht, ← h]

lemma decide_changed_check_mode (b : Backend) (p : ModuleParams) (w : World) (cm : Bool) :
    decide_changed b { p with check_mode := cm } w = decide_changed b p w := rfl

/-- C2: a check-mode (Simulate) run never writes, removes or backs up
anything — the world is byte-for-byte unchanged — while reporting the same
changed value an apply run from the same starting state would report
(whenever that apply run succeeds). -/
theorem c2_simulate_purity (b : Backend) (p : ModuleParams) (w : World) :
    (main_run b { p with check_mode := true } w).2.1 = w ∧
    ∀ c, changedOf (main_run b { p with check_mode := false } w).1 = some c →
      changedOf (main_run b { p with check_mode := true } w).1 = some c := by
  constructor
  · exact main_run_check_world b _ w rfl
  · intro c h
    cases hd : w.parent_dir_exists
    · simp [main_run, hd, changedOf] at h
    · have h2 := main_run_apply_changed b { p with check_mode := false } w rfl hd c h
      have h3 := main_run_check_changed b { p with check_mode := true } w rfl hd
      simp [h2, h3, decide_changed_check_mode]

/-- C2 witness: from an absent target, the simulate run leaves the world
unchanged and reports the same changed=true an apply run reports. -/
theorem c2_simulate_purity_witness :
    (main_run sampleBackend { baseParams with check_mode := true } absentWorld).2.1 =
      absentWorld ∧
    changedOf (main_run sampleBackend { baseParams with check_mode := true }
      absentWorld).1 = some true :=
  ⟨(c2_simulate_purity sampleBackend baseParams absentWorld).1,
   (c2_simulate_purity sampleBackend baseParams absentWorld).2 true rfl⟩

/-- C8: with the parent directory of the target path missing, the run fails
with the directory error before any backend selection, loading, comparison or
mutation: the world is untouched and the event trace is empty. -/
theorem c8_missing_parent_dir (b : Backend) (p : ModuleParams) (w : World)
    (hd : w.parent_dir_exists = false) :
    main_run b p w =
      (.error "The directory does not exist or the file is not a directory", w, []) := by
  simp [main_run, hd]

/-- C8 witness at a concrete world whose parent directory is missing. -/
theorem c8_missing_parent_dir_witness :
    main_run sampleBackend baseParams noDirWorld =
      (.error "The directory does not exist or the file is not a directory", noDirWorld, []) :=
  c8_missing_parent_dir sampleBackend baseParams noDirWorld rfl

/-- C6: when the backend raises one of its error conditions while a
regeneration is due, the run aborts with that error's message surfaced
verbatim, produces no success record, and performs no write: the world is
exactly as before the run. -/
theorem c6_backend_error_fatal (b : Backend) (p : ModuleParams) (w : World)
    (hs : p.state = .present) (hc : p.check_mode = false)
    (hd : w.parent_dir_exists = true)
    (hreg : (p.force || needs_regeneration b p.desired
      { existing := load_file_if_exists w, csr := none }) = true)
    (msg : String) (hbuild : b.build p.desired = .error msg) :
    (main_run b p w).1 = .error msg ∧ (main_run b p w).2.1 = w := by
  simp [main_run, hd, hs, generate, initModule, set_existing, hreg, hc, hbuild]

/-- C6 witness: the failing backend aborts a concrete run with its message
verbatim and no world change. -/
theorem c6_backend_error_fatal_witness :
    (main_run failingBackend baseParams absentWorld).1 = .error "signing key unavailable" ∧
    (main_run failingBackend baseParams absentWorld).2.1 = absentWorld :=
  c6_backend_error_fatal failingBackend baseParams absentWorld rfl rfl rfl rfl
    "signing key unavailable" rfl

/-- C7: requesting state Absent with no file at the target path succeeds with
changed=false, leaves the world untouched, and puts no backup path in the
outcome record, even when the backup option is set. -/
theorem c7_absent_to_absent_noop (b : Backend) (p : ModuleParams) (w : World)
    (hs : p.state = .absent) (hd : w.parent_dir_exists = true)
    (ht : w.target = none) :
    (main_run b p w).2.1 = w ∧
    changedOf (main_run b p w).1 = some false ∧
    backupFileOf (main_run b p w).1 = none := by
  cases hb : p.backup <;> cases hc : p.check_mode <;>
    simp [main_run, hd, hs, remove, initModule, set_existing, load_file_if_exists, ht,
      backup_local, base_remove, dump, backend_dump, changedOf, backupFileOf, hb, hc]

/-- C7 witness: a concrete Absent request on an absent target with the backup
option set. -/
theorem c7_absent_to_absent_noop_witness :
    (main_run sampleBackend { baseParams with state := .absent, backup := true }
      absentWorld).2.1 = absentWorld ∧
    changedOf (main_run sampleBackend { baseParams with state := .absent, backup := true }
      absentWorld).1 = some false ∧
    backupFileOf (main_run sampleBackend { baseParams with state := .absent, backup := true }
      absentWorld).1 = none :=
  c7_absent_to_absent_noop sampleBackend
    { baseParams with state := .absent, backup := true } absentWorld rfl rfl rfl

/-- C10: every removal run clears the backend's existing-artifact state
before the outcome record is produced, so a successful Absent-state dump
carries no summary and no CSR content, even with return_content set. -/
theorem c10_removed_summary_empty (b : Backend) (p : ModuleParams) (w : World)
    (hs : p.state = .absent) (r : DumpResult)
    (h : (main_run b p w).1 = .ok r) :
    r.summary = none ∧ r.csr_content = none := by
  cases hd : w.parent_dir_exists
  · simp [main_run, hd] at h
  · rcases ht : w.target with _ | ⟨bs, a⟩ <;>
      cases hb : p.backup <;> cases hc : p.check_mode <;> cases hok : w.backup_ok <;>
      simp [main_run, hd, hs, remove, initModule, set_existing, load_file_if_exists, ht,
        backup_local, base_remove, dump, backend_dump, hb, hc, hok] at h <;>
      simp [← h]

/-- C10 witness: removing an existing, parseable CSR with return_content set
yields an outcome record with no summary and no content. -/
theorem c10_removed_summary_empty_witness :
    ({ summary := none, csr_content := none, changed := true,
       backup_file := none } : DumpResult).summary = none ∧
    ({ summary := none, csr_content := none, changed := true,
       backup_file := none } : DumpResult).csr_content = none :=
  c10_removed_summary_empty sampleBackend
    { baseParams with state := .absent, return_content := true } matchWorld rfl
    { summary := none, csr_content := none, changed := true, backup_file := none } rfl

/-- C4: in apply-mode runs with a backup requested, every destructive write
or delete is preceded in the event trace by a completed backup; and when the
backup operation would fail (an existing target with backup_ok=false) while a
destructive action is pending, the run fails with no write, no delete, and an
entirely unchanged world. -/
theorem c4_backup_before_destruction (b : Backend) (p : ModuleParams) (w : World)
    (hc : p.check_mode = false) (hb : p.backup = true)
    (res : Except String DumpResult) (w1 : World) (evs : List Event)
    (h : main_run b p w = (res, w1, evs)) :
    (Event.write ∈ evs → evs.indexOf Event.backup < evs.indexOf Event.write) ∧
    (Event.removeFile ∈ evs → evs.indexOf Event.backup < evs.indexOf Event.removeFile) ∧
    (w.backup_ok = false → w.target.isSome = true → destructive_pending b p w = true →
      (∃ e, res = .error e) ∧ Event.write ∉ evs ∧ Event.removeFile ∉ evs ∧ w1 = w) := by
  cases hd : w.parent_dir_exists
  · simp [main_run, hd] at h
    rcases h with ⟨hr, hw, he⟩
    subst hr hw he
    simp
  · cases hs : p.state
    · cases hreg : (p.force || needs_regeneration b p.desired
          { existing := load_file_if_exists w, csr := none })
      · obtain ⟨hf, hN⟩ := Bool.or_eq_false_iff.mp hreg
        simp [main_run, hd, hs, generate, initModule, set_existing, hf, hN, hc,
          check_file_absent_if_check_mode] at h
        rcases h with ⟨hr, hw, he⟩
        subst hr hw he
        refine ⟨by decide, by decide, ?_⟩
        intro _ _ h3
        simp [destructive_pending, hs, hf, hN] at h3
      · cases hbuild : b.build p.desired with
        | error e =>
          cases hf : p.force
          · have hN : needs_regeneration b p.desired
                { existing := load_file_if_exists w, csr := none } = true := by
              simpa [hf] using hreg
            simp [main_run, hd, hs, generate, initModule, set_existing, hf, hN, hc,
              hbuild] at h
            rcases h with ⟨hr, hw, he⟩
            subst hr hw he
            exact ⟨by decide, by decide, fun _ _ _ => ⟨⟨e, rfl⟩, by decide, by decide, rfl⟩⟩
          · simp [main_run, hd, hs, generate, initModule, set_existing, hf, hc,
              hbuild] at h
            rcases h with ⟨hr, hw, he⟩
            subst hr hw he
            exact ⟨by decide, by decide, fun _ _ _ => ⟨⟨e, rfl⟩, by decide, by decide, rfl⟩⟩
        | ok art =>
          rcases ht : w.target with _ | ⟨tb, ta⟩
          · cases hf : p.force
            · have hN : needs_regeneration b p.desired
                  { existing := load_file_if_exists w, csr := none } = true := by
                simpa [hf] using hreg
              simp [main_run, hd, hs, generate, initModule, set_existing, hf, hN, hc,
                hbuild, hb, backup_local, ht, check_file_absent_if_check_mode,
                write_file] at h
              rcases h with ⟨hr, hw, he⟩
              subst hr hw he
              refine ⟨by decide, by decide, ?_⟩
              intro _ h2 _
              simp [ht] at h2
            · simp [main_run, hd, hs, generate, initModule, set_existing, hf, hc,
                hbuild, hb, backup_local, ht, check_file_absent_if_check_mode,
                write_file] at h
              rcases h with ⟨hr, hw, he⟩
              subst hr hw he
              refine ⟨by decide, by decide, ?_⟩
              intro _ h2 _
              simp [ht] at h2
          · cases hok : w.backup_ok
            · cases hf : p.force
              · have hN : needs_regeneration b p.desired
                    { existing := load_file_if_exists w, csr := none } = true := by
                  simpa [hf] using hreg
                simp [main_run, hd, hs, generate, initModule, set_existing, hf, hN, hc,
                  hbuild, hb, backup_local, ht, hok] at h
                rcases h with ⟨hr, hw, he⟩
                subst hr hw he
                exact ⟨by decide, by decide,
                  fun _ _ _ => ⟨⟨"backup failed", rfl⟩, by decide, by decide, rfl⟩⟩
              · simp [main_run, hd, hs, generate, initModule, set_existing, hf, hc,
                  hbuild, hb, backup_local, ht, hok] at h
                rcases h with ⟨hr, hw, he⟩
                subst hr hw he
                exact ⟨by decide, by decide,
                  fun _ _ _ => ⟨⟨"backup failed", rfl⟩, by decide, by decide, rfl⟩⟩
            · cases hf : p.force
              · have hN : needs_regeneration b p.desired
                    { existing := load_file_if_exists w, csr := none } = true := by
                  simpa [hf] using hreg
                simp [main_run, hd, hs, generate, initModule, set_existing, hf, hN, hc,
                  hbuild, hb, backup_local, ht, hok, check_file_absent_if_check_mode,
                  write_file] at h
                rcases h with ⟨hr, hw, he⟩
                subst hr hw he
                refine ⟨by decide, by decide, ?_⟩
                intro h1 _ _
                simp [hok] at h1
              · simp [main_run, hd, hs, generate, initModule, set_existing, hf, hc,
                  hbuild, hb, backup_local, ht, hok, check_file_absent_if_check_mode,
                  write_file] at h
                rcases h with ⟨hr, hw, he⟩
                subst hr hw he
                refine ⟨by decide, by decide, ?_⟩
                intro h1 _ _
                simp [hok] at h1
    · rcases ht : w.target with _ | ⟨tb, ta⟩
      · simp [main_run, hd, hs, remove, initModule, set_existing, hb, hc, backup_local,
          ht, base_remove] at h
        rcases h with ⟨hr, hw, he⟩
        subst hr hw he
        refine ⟨by decide, by decide, ?_⟩
        intro _ h2 _
        simp [ht] at h2
      · cases hok : w.backup_ok
        · simp [main_run, hd, hs, remove, initModule, set_existing, hb, hc, backup_local,
            ht, hok] at h
          rcases h with ⟨hr, hw, he⟩
          subst hr hw he
          exact ⟨by decide, by decide,
            fun _ _ _ => ⟨⟨"backup failed", rfl⟩, by decide, by decide, rfl⟩⟩
        · simp [main_run, hd, hs, remove, initModule, set_existing, hb, hc, backup_local,
            ht, hok, base_remove] at h
          rcases h with ⟨hr, hw, he⟩
          subst hr hw he
          refine ⟨by decide, by decide, ?_⟩
          intro h1 _ _
          simp [hok] at h1

/-- C4 witness: a removal with backup requested whose backup fails aborts the
run with no destructive event and an unchanged world. -/
theorem c4_backup_before_destruction_witness :
    (Event.write ∈ [Event.selectBackend, Event.load] →
      [Event.selectBackend, Event.load].indexOf Event.backup <
        [Event.selectBackend, Event.load].indexOf Event.write) ∧
    (Event.removeFile ∈ [Event.selectBackend, Event.load] →
      [Event.selectBackend, Event.load].indexOf Event.backup <
        [Event.selectBackend, Event.load].indexOf Event.removeFile) ∧
    (badBackupWorld.backup_ok = false → badBackupWorld.target.isSome = true →
      destructive_pending sampleBackend
        { baseParams with state := .absent, backup := true } badBackupWorld = true →
      (∃ e, (Except.error "backup failed" : Except String DumpResult) = .error e) ∧
      Event.write ∉ [Event.selectBackend, Event.load] ∧
      Event.removeFile ∉ [Event.selectBackend, Event.load] ∧
      badBackupWorld = badBackupWorld) :=
  c4_backup_before_destruction sampleBackend
    { baseParams with state := .absent, backup := true } badBackupWorld rfl rfl
    (.error "backup failed") badBackupWorld [Event.selectBackend, Event.load] rfl

lemma sampleBackend_coherent (d : DesiredSpec) : Backend.coherent sampleBackend d := by
  intro a ha
  simp [sampleBackend] at ha
  subst ha
  refine ⟨⟨encodeSpec d⟩, ?_, ?_⟩
  · simp [sampleBackend, sampleParse, encodeSpec]
  · simp [sampleBackend]

/-- C1 counterexample: an apply run in state Present over a target that
already matches the desired specification (with force=false) reports
changed=false on its first run, refuting the claim that the first of two
consecutive Apply runs always reports changed=true for every DesiredSpec. -/
theorem c1_first_run_changed_counterexample :
    baseParams.state = TargetState.present ∧ baseParams.check_mode = false ∧
    baseParams.force = false ∧
    changedOf (main_run sampleBackend baseParams matchWorld).1 = some false :=
  ⟨rfl, rfl, rfl, rfl⟩

/-- C1 (amended): starting from an absent target with force=false, two
consecutive Present-state apply runs report changed=true then changed=false,
the world after the second run is identical to the world after the first
(so the target bytes are identical after both runs), and the bytes written by
the first run re-parse and match the desired specification. -/
theorem c1_idempotent_apply_twice (b : Backend) (p : ModuleParams) (w : World)
    (hs : p.state = .present) (hf : p.force = false) (hc : p.check_mode = false)
    (hd : w.parent_dir_exists = true) (ht : w.target = none)
    (art : Artifact) (hbuild : b.build p.desired = .ok art)
    (hcoh : b.coherent p.desired) :
    changedOf (main_run b p w).1 = some true ∧
    changedOf (main_run b p ((main_run b p w).2.1)).1 = some false ∧
    (main_run b p ((main_run b p w).2.1)).2.1 = (main_run b p w).2.1 ∧
    ((main_run b p w).2.1).target.map Prod.fst = some (b.serialize art) ∧
    ∃ a2, b.parse (b.serialize art) = some a2 ∧ b.matchesSpec a2 p.desired = true := by
  obtain ⟨a2, hparse, hmatch⟩ := hcoh art hbuild
  have hreg : needs_regeneration b p.desired
      { existing := load_file_if_exists w, csr := none } = true := by
    simp [needs_regeneration, load_file_if_exists, ht]
  have hchanged : changedOf (main_run b p w).1 = some true := by
    cases hb : p.backup <;>
      simp [main_run, hd, hs, generate, initModule, set_existing, hreg, hc, hbuild, hb,
        backup_local, ht, check_file_absent_if_check_mode, write_file, dump,
        set_fs_true, changedOf]
  have hw1 : (main_run b p w).2.1 =
      { w with target := some (b.serialize art, p.file_attrs) } := by
    by_cases h00 : (Attrs.mk 0 0 0) = p.file_attrs <;>
      cases hb : p.backup <;>
        simp [main_run, hd, hs, generate, initModule, set_existing, hreg, hc, hbuild, hb,
          backup_local, ht, check_file_absent_if_check_mode, write_file,
          set_fs_attributes_if_different, h00]
  have hreg2 : needs_regeneration b p.desired
      { existing := some (b.serialize art), csr := none } = false := by
    simp [needs_regeneration, hparse, hmatch]
  have h2c : changedOf (main_run b p
      { w with target := some (b.serialize art, p.file_attrs) }).1 = some false := by
    simp [main_run, hd, hs, generate, initModule, set_existing, load_file_if_exists,
      hreg2, hf, hc, check_file_absent_if_check_mode, set_fs_attributes_if_different,
      dump, changedOf]
  have h2w : (main_run b p { w with target := some (b.serialize art, p.file_attrs) }).2.1 =
      { w with target := some (b.serialize art, p.file_attrs) } := by
    simp [main_run, hd, hs, generate, initModule, set_existing, load_file_if_exists,
      hreg2, hf, hc, check_file_absent_if_check_mode, set_fs_attributes_if_different]
  refine ⟨hchanged, ?_, ?_, ?_, a2, hparse, hmatch⟩
  · rw [hw1]
    exact h2c
  · rw [hw1]
    exact h2w
  · rw [hw1]
    simp

/-- C1 witness: the two-run sequence at a concrete backend, desired
specification and empty starting world. -/
theorem c1_idempotent_apply_twice_witness :
    changedOf (main_run sampleBackend baseParams absentWorld).1 = some true ∧
    changedOf (main_run sampleBackend baseParams
      ((main_run sampleBackend baseParams absentWorld).2.1)).1 = some false ∧
    (main_run sampleBackend baseParams
      ((main_run sampleBackend baseParams absentWorld).2.1)).2.1 =
      (main_run sampleBackend baseParams absentWorld).2.1 ∧
    ((main_run sampleBackend baseParams absentWorld).2.1).target.map Prod.fst =
      some (sampleBackend.serialize ⟨encodeSpec sampleSpec⟩) ∧
    ∃ a2, sampleBackend.parse (sampleBackend.serialize ⟨encodeSpec sampleSpec⟩) =
      some a2 ∧ sampleBackend.matchesSpec a2 baseParams.desired = true :=
  c1_idempotent_apply_twice sampleBackend baseParams absentWorld rfl rfl rfl rfl rfl
    ⟨encodeSpec sampleSpec⟩ rfl (sampleBackend_coherent baseParams.desired)

/-- C5: unparseable target bytes with requested state Present are treated as
absent/mismatched rather than fatal: the apply run succeeds, regenerates the
artifact from the desired specification, and reports changed=true. -/
theorem c5_corrupt_self_heal (b : Backend) (p : ModuleParams) (w : World)
    (hs : p.state = .present) (hc : p.check_mode = false)
    (hd : w.parent_dir_exists = true)
    (bs : Bytes) (a : Attrs) (ht : w.target = some (bs, a))
    (hparse : b.parse bs = none)
    (art : Artifact) (hbuild : b.build p.desired = .ok art)
    (hok : w.backup_ok = true) :
    changedOf (main_run b p w).1 = some true ∧
    Event.write ∈ (main_run b p w).2.2 ∧
    (main_run b p w).2.1.target.map Prod.fst = some (b.serialize art) := by
  have hreg : needs_regeneration b p.desired
      { existing := load_file_if_exists w, csr := none } = true := by
    simp [needs_regeneration, load_file_if_exists, ht, hparse]
  cases hb : p.backup <;>
    simp [main_run, hd, hs, generate, initModule, set_existing, hreg, hc, hbuild, hb,
      backup_local, ht, hok, check_file_absent_if_check_mode, write_file, dump,
      set_fs_true, set_fs_target_fst, changedOf]

/-- C5 witness: a concrete corrupt target is healed by regeneration with
changed=true. -/
theorem c5_corrupt_self_heal_witness :
    changedOf (main_run sampleBackend { baseParams with backup := true } corruptWorld).1 =
      some true ∧
    Event.write ∈ (main_run sampleBackend { baseParams with backup := true } corruptWorld).2.2 ∧
    (main_run sampleBackend { baseParams with backup := true }
      corruptWorld).2.1.target.map Prod.fst =
      some (sampleBackend.serialize ⟨encodeSpec sampleSpec⟩) :=
  c5_corrupt_self_heal sampleBackend { baseParams with backup := true } corruptWorld
    rfl rfl rfl [7] sampleAttrs rfl rfl ⟨encodeSpec sampleSpec⟩ rfl rfl

/-- C9: when the regeneration decision is a no-op (existing artifact matches
and force=false), a Present-state apply run still normalizes the target's
file attributes and reports changed=true exactly when they differed, with the
CSR bytes left untouched. -/
theorem c9_attribute_only_change (b : Backend) (p : ModuleParams) (w : World)
    (hs : p.state = .present) (hc : p.check_mode = false)
    (hd : w.parent_dir_exists = true) (hf : p.force = false)
    (bs : Bytes) (a : Attrs) (ht : w.target = some (bs, a))
    (hreg : needs_regeneration b p.desired { existing := some bs, csr := none } = false) :
    (main_run b p w).2.1.target = some (bs, p.file_attrs) ∧
    changedOf (main_run b p w).1 = some (if a = p.file_attrs then false else true) := by
  by_cases ha : a = p.file_attrs <;>
    simp [main_run, hd, hs, generate, initModule, set_existing, load_file_if_exists, ht,
      hreg, hf, hc, check_file_absent_if_check_mode, set_fs_attributes_if_different,
      changedOf, dump, ha]

/-- C9 witness: a matching target whose attributes differ is normalized and
the run reports changed=true with the bytes untouched. -/
theorem c9_attribute_only_change_witness :
    (main_run sampleBackend baseParams mismatchedAttrsWorld).2.1.target =
      some (encodeSpec sampleSpec, baseParams.file_attrs) ∧
    changedOf (main_run sampleBackend baseParams mismatchedAttrsWorld).1 = some true :=
  c9_attribute_only_change sampleBackend baseParams mismatchedAttrsWorld
    rfl rfl rfl rfl (encodeSpec sampleSpec) otherAttrs rfl rfl

/-- C3: with requested state Present in an apply run, the artifact is written
anew exactly when force is set or the backend comparison reports the existing
artifact does not satisfy the desired specification; without either, the
target's bytes are untouched; and when regeneration fires, the run reports
changed=true. -/
theorem c3_regeneration_decision (b : Backend) (p : ModuleParams) (w : World)
    (hs : p.state = .present) (hc : p.check_mode = false)
    (hd : w.parent_dir_exists = true)
    (r : DumpResult) (w1 : World) (evs : List Event)
    (h : main_run b p w = (.ok r, w1, evs)) :
    (Event.write ∈ evs ↔ (p.force || needs_regeneration b p.desired
        { existing := load_file_if_exists w, csr := none }) = true) ∧
    ((p.force || needs_regeneration b p.desired
        { existing := load_file_if_exists w, csr := none }) = false →
      w1.target.map Prod.fst = w.target.map Prod.fst) ∧
    ((p.force || needs_regeneration b p.desired
        { existing := load_file_if_exists w, csr := none }) = true →
      r.changed = true) := by
  cases hreg : (p.force || needs_regeneration b p.desired
      { existing := load_file_if_exists w, csr := none })
  · obtain ⟨hf, hN⟩ := Bool.or_eq_false_iff.mp hreg
    simp [main_run, hd, hs, generate, initModule, set_existing, hf, hN, hc,
      check_file_absent_if_check_mode] at h
    rcases h with ⟨hr, hw, he⟩
    subst hr hw he
    simp [hreg, set_fs_target_fst]
  · cases hbuild : b.build p.desired with
    | error e =>
      simp [main_run, hd, hs, generate, initModule, set_existing, hreg, hc, hbuild] at h
    | ok art =>
      cases hb : p.backup
      · simp [main_run, hd, hs, generate, initModule, set_existing, hreg, hc, hbuild, hb,
          check_file_absent_if_check_mode, write_file, set_fs_true] at h
        rcases h with ⟨hr, hw, he⟩
        subst hr hw he
        cases hf : p.force <;> simp [hf, dump, set_fs_true]
      · rcases ht : w.target with _ | ⟨tb, ta⟩
        · simp [main_run, hd, hs, generate, initModule, set_existing, hreg, hc, hbuild, hb,
            backup_local, ht, check_file_absent_if_check_mode, write_file, set_fs_true] at h
          rcases h with ⟨hr, hw, he⟩
          subst hr hw he
          cases hf : p.force <;> simp [hf, dump, set_fs_true]
        · cases hok : w.backup_ok
          · simp [main_run, hd, hs, generate, initModule, set_existing, hreg, hc, hbuild,
              hb, backup_local, ht, hok] at h
          · simp [main_run, hd, hs, generate, initModule, set_existing, hreg, hc, hbuild,
              hb, backup_local, ht, hok, check_file_absent_if_check_mode, write_file,
              set_fs_true] at h
            rcases h with ⟨hr, hw, he⟩
            subst hr hw he
            cases hf : p.force <;> simp [hf, dump, set_fs_true]

/-- C3 witness: a matching target without force is a no-op whose bytes are
untouched. -/
theorem c3_regeneration_decision_witness :
    (Event.write ∈ [Event.selectBackend, Event.load, Event.compare] ↔
      (baseParams.force || needs_regeneration sampleBackend baseParams.desired
        { existing := load_file_if_exists matchWorld, csr := none }) = true) ∧
    ((baseParams.force || needs_regeneration sampleBackend baseParams.desired
        { existing := load_file_if_exists matchWorld, csr := none }) = false →
      matchWorld.target.map Prod.fst = matchWorld.target.map Prod.fst) ∧
    ((baseParams.force || needs_regeneration sampleBackend baseParams.desired
        { existing := load_file_if_exists matchWorld, csr := none }) = true →
      ({ summary := some ⟨[("CN", "3")], []⟩, csr_content := none, changed := false,
         backup_file := none } : DumpResult).changed = true) :=
  c3_regeneration_decision sampleBackend baseParams matchWorld rfl rfl rfl
    { summary := some ⟨[("CN", "3")], []⟩, csr_content := none, changed := false,
      backup_file := none }
    matchWorld [Event.selectBackend, Event.load, Event.compare] rfl

end CsrReconcile
